import Mathlib

/-!
Shallow embedding of the mairu job pipeline: the row processor
(`src/src/app/services/instagram.py`, `InstagramService.generate_posts`),
the folder-watch monitoring service
(`src/src/app/services/monitoring_service.py`, `FolderMonitoringService`),
and the email scheduler (`src/app/services/scheduler.py`, `EmailScheduler`).

Strings are embedded as `List Char`; Python `str.lower`, `str.strip` and
string truthiness are modelled explicitly.  External collaborators (the
Google Drive / Sheets / Gmail clients) are supplied as parameters: a file
listing result, a per-row render outcome, an email-send outcome, a
file-move outcome.
-/

namespace Mairu

/-- Strings of the embedded program, as lists of characters. -/
abbrev Str := List Char

/-- Coerce a Lean string literal into the embedded string type. -/
def strL (s : String) : Str := s.data

/-- Decimal rendering of a natural number, used for Python f-string pieces. -/
def natRepr (n : Nat) : Str := (Nat.repr n).data

/-- The characters Python `str.strip()` removes: ASCII whitespace. -/
def isPySpace (c : Char) : Bool :=
  c == ' ' || c == '\t' || c == '\n' || c == '\r' || c == '\x0b' || c == '\x0c'

/-- Python `str.lower()` (ASCII case folding, as `Char.toLower`). -/
def pyLower (s : Str) : Str := s.map Char.toLower

/-- Python `str.strip()`: drop leading and trailing whitespace. -/
def pyStrip (s : Str) : Str :=
  ((s.dropWhile isPySpace).reverse.dropWhile isPySpace).reverse

/-- Python truthiness of a string: non-empty. -/
def pyTruthy (s : Str) : Bool := !s.isEmpty

/-- Python truthiness of an `Optional[str]`: present and non-empty. -/
def optTruthy : Option Str → Bool
  | none => false
  | some s => !s.isEmpty

/-- The process-flag comparison of `generate_posts` (instagram.py line 217):
`flag_value.lower().strip() == process_flag_value.lower().strip()`. -/
def flagMatches (cell flagValue : Str) : Bool :=
  pyStrip (pyLower cell) == pyStrip (pyLower flagValue)

/-! ## Row processor: `InstagramService.generate_posts` (instagram.py lines 81-363) -/

/-- Whether `needle` starts `hay` (helper for Python substring containment). -/
def strStartsWith : Str → Str → Bool
  | [], _ => true
  | _ :: _, [] => false
  | n :: ns, h :: hs => n == h && strStartsWith ns hs

/-- Python `needle in hay` on strings: contiguous substring containment
(the empty needle is contained in everything). -/
def strContains (needle : Str) : Str → Bool
  | [] => needle.isEmpty
  | h :: t => strStartsWith needle (h :: t) || strContains needle t

/-- Embeds `_find_column_index` (instagram.py lines 397-402): first header whose
lower-cased text contains the lower-cased column name as a substring,
`-1` when none does.  Recursion carries the current index. -/
def findColumnIndexAux (columnName : Str) : Nat → List Str → Int
  | _, [] => -1
  | i, h :: t =>
    if strContains (pyLower columnName) (pyLower h) then (i : Int)
    else findColumnIndexAux columnName (i + 1) t

/-- Embeds `_find_column_index(headers, column_name)`. -/
def findColumnIndex (headers : List Str) (columnName : Str) : Int :=
  findColumnIndexAux columnName 0 headers

/-- The `mapping_indices` dict built at instagram.py lines 126-139: for each
`(placeholder, column_name)` pair keep the resolved column index, dropping
unresolved ones; with no (truthy) `column_mappings` fall back to the
`Japanese` column mapped to the `\x7b\x7bTEXT\x7d\x7d` placeholder. -/
def mappingIndices (headers : List Str) : Option (List (Str × Str)) → List (Str × Nat)
  | some ms =>
    if ms.isEmpty then
      let i := findColumnIndex headers (strL "Japanese")
      if i = -1 then [] else [(strL "\x7b\x7bTEXT\x7d\x7d", i.toNat)]
    else
      ms.filterMap fun pc =>
        let i := findColumnIndex headers pc.2
        if i = -1 then none else some (pc.1, i.toNat)
  | none =>
    let i := findColumnIndex headers (strL "Japanese")
    if i = -1 then [] else [(strL "\x7b\x7bTEXT\x7d\x7d", i.toNat)]

/-- Embeds `process_flag_idx` (instagram.py lines 142-146): `-1` unless a truthy
flag column name is given, else the resolved index (possibly `-1`). -/
def processFlagIdxOf (headers : List Str) (processFlagColumn : Option Str) : Int :=
  if optTruthy processFlagColumn then findColumnIndex headers (processFlagColumn.getD [])
  else -1

/-- A cell write issued through `_update_cell` (1-based row, 1-based column, value). -/
abbrev CellWrite := Nat × Nat × Str

/-- The status-column setup (instagram.py lines 149-154): resolve the status
column; when a truthy name is given but unresolved, take the first column
past the headers and write the literal header text `Status` at row 1. -/
def statusColumnSetup (headers : List Str) (updateStatusColumn : Option Str) :
    Int × List CellWrite :=
  if optTruthy updateStatusColumn then
    let i := findColumnIndex headers (updateStatusColumn.getD [])
    if i = -1 then ((headers.length : Int), [(1, headers.length + 1, strL "Status")])
    else (i, [])
  else (-1, [])

/-- The per-row admission test (instagram.py lines 214-218): when the flag
index is set and within the row, compare the flag cell against the
configured value; otherwise the row stays eligible (`should_process = True`). -/
def shouldProcessRow (processFlagIdx : Int) (processFlagValue : Str) (row : List Str) : Bool :=
  if processFlagIdx ≠ -1 ∧ processFlagIdx < (row.length : Int) then
    flagMatches (row.getD processFlagIdx.toNat []) processFlagValue
  else true

/-- The `text_replacements` built for a row (instagram.py lines 227-233):
mapped cells that are in bounds, truthy, and non-blank after `strip()`. -/
def rowReplacements (mi : List (Str × Nat)) (row : List Str) : List (Str × Str) :=
  mi.filterMap fun pc =>
    if pc.2 < row.length ∧ pyTruthy (row.getD pc.2 []) = true ∧
        (pyStrip (row.getD pc.2 [])).isEmpty = false then
      some (pc.1, row.getD pc.2 [])
    else none

/-- Embeds `has_content` for a row: at least one mapped column holds content. -/
def rowHasContent (mi : List (Str × Nat)) (row : List Str) : Bool :=
  !(rowReplacements mi row).isEmpty

/-- One entry of `generated_files` (instagram.py lines 259-294). -/
structure FileEntry where
  png_id : Nat
  slide_id : Nat
  name : Str
  original_image_backup_id : Option Nat
deriving DecidableEq

/-- The status write a row emits when a status column is configured
(`_update_cell(…, i + 1, status_col_idx + 1, value)`), nothing otherwise. -/
def statusWrite (statusColIdx : Int) (i : Nat) (value : Str) : List CellWrite :=
  if statusColIdx ≠ -1 then [(i + 1, statusColIdx.toNat + 1, value)] else []

/-- The row loop of `generate_posts` (instagram.py lines 211-315).
`render i` is the outcome of `_generate_post_from_template` for row `i`
(`some (png_id, slide_id)` on success, `none` on its caught failure);
`origBackup i` is the outcome of the original-background-image backup copy,
consulted only when `doOrigBackup` (a truthy `background_image_id` and
`backup_folder_id`) holds.  Returns
`(processed_count, skipped_count, generated_files, cell writes)`. -/
def processRows (mi : List (Str × Nat)) (processFlagIdx : Int) (processFlagValue : Str)
    (statusColIdx : Int) (render : Nat → Option (Nat × Nat))
    (origBackup : Nat → Option Nat) (doOrigBackup : Bool) :
    Nat → List (List Str) → Nat × Nat × List FileEntry × List CellWrite
  | _, [] => (0, 0, [], [])
  | i, row :: rest =>
    let L := processRows mi processFlagIdx processFlagValue statusColIdx render
      origBackup doOrigBackup (i + 1) rest
    if shouldProcessRow processFlagIdx processFlagValue row = false then
      (L.1, L.2.1 + 1, L.2.2.1, statusWrite statusColIdx i (strL "Skipped") ++ L.2.2.2)
    else if (rowReplacements mi row).isEmpty then
      (L.1, L.2.1 + 1, L.2.2.1, statusWrite statusColIdx i (strL "No content") ++ L.2.2.2)
    else
      match render i with
      | some ids =>
        let entry : FileEntry :=
          { png_id := ids.1, slide_id := ids.2,
            name := strL "InstagramPost_" ++ natRepr i,
            original_image_backup_id := if doOrigBackup then origBackup i else none }
        (L.1 + 1, L.2.1, entry :: L.2.2.1,
          statusWrite statusColIdx i (strL "Processing...") ++
            statusWrite statusColIdx i (strL "Sent") ++ L.2.2.2)
      | none =>
        (L.1, L.2.1 + 1, L.2.2.1,
          statusWrite statusColIdx i (strL "Processing...") ++
            statusWrite statusColIdx i (strL "Failed to generate") ++ L.2.2.2)

/-- The result dict of `generate_posts`; `files` is `none` on the return
paths whose dict carries no `files` key. -/
structure GenResult where
  success : Bool
  count : Nat
  message : Str
  files : Option (List FileEntry)
deriving DecidableEq

/-- Inputs of `generate_posts`.  `spreadsheet_id`, `sheet_name`,
`slides_template_id` and `image_url` are routed to the collaborators
(cell writes target `(spreadsheet_id, sheet_name)`; `image_url` is closed
over by the abstract `render` outcome). -/
structure GenInput where
  spreadsheet_id : Str
  sheet_name : Str
  slides_template_id : Str
  sheetData : List (List Str)
  columnMappings : Option (List (Str × Str))
  processFlagColumn : Option Str
  processFlagValue : Str
  updateStatusColumn : Option Str
  recipientEmail : Str
  driveFolderId : Option Str
  backupFolderId : Option Str
  backgroundImageId : Option Str
  imageUrl : Option Str
deriving DecidableEq

/-- Embeds `sheet_data[0]`. -/
def genHeaders (inp : GenInput) : List Str := inp.sheetData.headD []

/-- The resolved placeholder-to-column mapping of a `generate_posts` run. -/
def genMappingIndices (inp : GenInput) : List (Str × Nat) :=
  mappingIndices (genHeaders inp) inp.columnMappings

/-- The resolved status column and its header write, for a run. -/
def genStatusSetup (inp : GenInput) : Int × List CellWrite :=
  statusColumnSetup (genHeaders inp) inp.updateStatusColumn

/-- Whether the original background image is backed up per row
(instagram.py line 266: `if background_image_id and backup_folder_id`). -/
def genDoOrigBackup (inp : GenInput) : Bool :=
  optTruthy inp.backgroundImageId && optTruthy inp.backupFolderId

/-- The row loop of a `generate_posts` run, started at row index 1 over
`sheet_data[1:]`. -/
def genLoop (inp : GenInput) (render : Nat → Option (Nat × Nat))
    (origBackup : Nat → Option Nat) : Nat × Nat × List FileEntry × List CellWrite :=
  processRows (genMappingIndices inp)
    (processFlagIdxOf (genHeaders inp) inp.processFlagColumn)
    inp.processFlagValue (genStatusSetup inp).1 render origBackup
    (genDoOrigBackup inp) 1 (inp.sheetData.drop 1)

/-- Result message when posts were generated but the email send failed
(instagram.py line 333), factored at the point it diverges from the
success message. -/
def emailFailMessage (n : Nat) (recipient : Str) (skipped : Nat) : Str :=
  (strL "Generated " ++ natRepr n ++ strL " Instagram posts ") ++
    (strL "but FAILED to send email to " ++ recipient ++
      strL ". Check logs. Skipped " ++ natRepr skipped ++ strL " rows.")

/-- Result message when posts were generated and the email was sent
(instagram.py line 342). -/
def emailOkMessage (n : Nat) (recipient : Str) (skipped : Nat) : Str :=
  (strL "Generated " ++ natRepr n ++ strL " Instagram posts ") ++
    (strL "and sent to " ++ recipient ++
      strL ". Skipped " ++ natRepr skipped ++ strL " rows.")

/-- Result message when no posts were generated (instagram.py line 351). -/
def noFilesMessage (skipped : Nat) : Str :=
  strL "No posts were generated. Skipped " ++ natRepr skipped ++
    strL " rows. Check your mappings and flag conditions."

/-- Embeds `InstagramService.generate_posts` (instagram.py lines 81-363):
early returns for missing data, unresolved mappings and a missing target
folder, then the row loop, then the single email send (`emailOk` is the
outcome of `_send_email_with_attachments`).  Returns the result dict and
the sheet cell writes in issue order. -/
def generate_posts (inp : GenInput) (render : Nat → Option (Nat × Nat))
    (origBackup : Nat → Option Nat) (emailOk : Bool) : GenResult × List CellWrite :=
  if inp.sheetData.length ≤ 1 then
    (⟨false, 0, strL "No data found in the spreadsheet.", none⟩, [])
  else
    let headerWrites := (genStatusSetup inp).2
    if (genMappingIndices inp).isEmpty then
      (⟨false, 0, strL "No valid column mappings found.", none⟩, headerWrites)
    else if !(optTruthy inp.backupFolderId) && !(optTruthy inp.driveFolderId) then
      (⟨false, 0,
        strL "A target folder (backup_folder_id or drive_folder_id) must be specified for generation output.",
        none⟩, headerWrites)
    else
      let L := genLoop inp render origBackup
      let writes := headerWrites ++ L.2.2.2
      if !L.2.2.1.isEmpty then
        if !emailOk then
          (⟨true, L.2.2.1.length,
            emailFailMessage L.2.2.1.length inp.recipientEmail L.2.1,
            some L.2.2.1⟩, writes)
        else
          (⟨true, L.2.2.1.length,
            emailOkMessage L.2.2.1.length inp.recipientEmail L.2.1,
            some L.2.2.1⟩, writes)
      else
        (⟨false, 0, noFilesMessage L.2.1, none⟩, writes)

/-! ## Folder monitoring: `FolderMonitoringService` (monitoring_service.py) -/

/-- The `MonitoringConfigRequest` schema (schemas.py lines 100-115).  All
fields are plain pydantic fields; none carries a validator or bound. -/
structure MonitoringConfigRequest where
  enabled : Bool
  trigger_folder_id : Str
  backup_folder_id : Str
  spreadsheet_id : Str
  monitoring_frequency_minutes : Int
  status_column_name : Option Str
  sheet_name : Str
  slides_template_id : Str
  recipient_email : Str
  column_mappings : Option (List (Str × Str))
  process_flag_column : Option Str
  process_flag_value : Option Str
  background_image_id : Option Str
deriving DecidableEq

/-- The mutable fields of `FolderMonitoringService` (monitoring_service.py
lines 24-32).  The stored auth details are not modelled; timestamps are
abstract instants. -/
structure MonState where
  current_config : Option MonitoringConfigRequest
  last_check_timestamp : Option Int
  last_processed_image_name : Option Str
  last_processed_image_status : Option Str
  last_processed_timestamp : Option Int
  error_message : Option Str
  is_monitoring_active : Bool
  active_job_id : Option Str
deriving DecidableEq

/-- A file as returned by the Drive listing (id and name are all the cycle
reads). -/
structure DriveFile where
  id : Str
  name : Str
deriving DecidableEq

/-- A Drive relocation operation issued by the monitoring cycle.  The
source only ever issues `moveFile` (monitoring_service.py line 171); the
`copyFile` constructor exists so the absence of copies is expressible. -/
inductive DriveOp where
  | moveFile (fileId dest : Str)
  | copyFile (fileId dest : Str)
deriving DecidableEq

/-- Whether an operation is a copy. -/
def DriveOp.isCopy : DriveOp → Bool
  | .copyFile _ _ => true
  | .moveFile _ _ => false

/-- Outcome of one `_check_trigger_folder` cycle: the post-state, the Drive
relocation operations attempted on the trigger file (in order), and whether
the trigger file ended up removed from the trigger folder. -/
structure CheckCycleResult where
  state : MonState
  ops : List DriveOp
  removedFromTrigger : Bool
deriving DecidableEq

/-- Embeds `_check_trigger_folder` (monitoring_service.py lines 97-195), with the
collaborator outcomes as parameters: `listing` is the Drive file listing
(`Except.error` models an exception caught by the surrounding handler),
`instaInit` the `InstagramService` constructor outcome, `gen` the
`generate_posts` call outcome (exception or result dict), and `moveResult`
the outcome of the `drive_service.move_file` backup call.  `now` and `now2`
are the two `datetime.utcnow()` samples. -/
def checkTriggerFolder (st : MonState) (now now2 : Int)
    (listing : Except Str (List DriveFile))
    (instaInit : Except Str Unit)
    (gen : Except Str GenResult)
    (moveResult : Except Str Unit) : CheckCycleResult :=
  match st.current_config with
  | none => ⟨st, [], false⟩
  | some cfg =>
    if st.is_monitoring_active = false then ⟨st, [], false⟩
    else
      let st1 := { st with last_check_timestamp := some now, error_message := none }
      match listing with
      | .error e =>
        ⟨{ st1 with
            error_message := some (strL "Error during folder check: " ++ e)
            last_processed_image_status := some (strL "Error during check") }, [], false⟩
      | .ok [] => ⟨{ st1 with last_processed_image_name := none }, [], false⟩
      | .ok (f :: _) =>
        let st2 := { st1 with
          last_processed_image_name := some f.name
          last_processed_image_status := some (strL "Detected")
          last_processed_timestamp := some now2 }
        match instaInit with
        | .error e =>
          ⟨{ st2 with
              error_message := some (strL "Error instantiating InstagramService: " ++ e)
              last_processed_image_status := some (strL "Error (InstagramService Init)") }, [], false⟩
        | .ok _ =>
          match gen with
          | .error e =>
            ⟨{ st2 with
                error_message := some (strL "Exception during post generation: " ++ e)
                last_processed_image_status := some (strL "Processing Exception") }, [], false⟩
          | .ok res =>
            if res.success then
              let st3 := { st2 with
                last_processed_image_status := some (strL "Processed and Emailed") }
              if cfg.backup_folder_id.isEmpty then
                let st4 := { st3 with
                  last_processed_image_status := some (strL "Processed (No Backup Folder)") }
                ⟨st4, [], false⟩
              else
                match moveResult with
                | .ok _ =>
                  ⟨{ st3 with last_processed_image_status := some (strL "Processed and Moved") },
                    [.moveFile f.id cfg.backup_folder_id], true⟩
                | .error me =>
                  ⟨{ st3 with
                      error_message := some (strL "Post generated, but failed to move file: " ++ me)
                      last_processed_image_status := some (strL "Processing OK, Move Failed") },
                    [.moveFile f.id cfg.backup_folder_id], false⟩
            else
              ⟨{ st2 with
                  error_message := some (strL "Post generation failed: " ++ res.message)
                  last_processed_image_status := some (strL "Processing Failed") }, [], false⟩

/-- An entry of the monitoring scheduler registry (job id and the interval
the job was scheduled with). -/
structure SchedulerJob where
  jobId : Str
  intervalMinutes : Int
deriving DecidableEq

/-- The dict returned by `update_configuration`; `job_id` is `none` on the
paths whose dict carries no `job_id` key. -/
structure ConfigureResult where
  success : Bool
  message : Str
  job_id : Option Str
deriving DecidableEq

/-- The monitoring job id generated by `_generate_job_id` for the default
user (monitoring_service.py lines 34-38). -/
def monitoringJobId : Str := strL "folder_monitoring_job_default_user"

/-- Embeds `update_configuration` (monitoring_service.py lines 40-76): store the
config, drop any existing monitoring job from the scheduler registry, then
either reject an enabled config with a falsy trigger folder id, schedule
the interval job at `monitoring_frequency_minutes`, or disable monitoring.
No validation of the interval is performed. -/
def update_configuration (st : MonState) (registry : List SchedulerJob)
    (config : MonitoringConfigRequest) :
    ConfigureResult × MonState × List SchedulerJob :=
  let st1 := { st with current_config := some config, active_job_id := some monitoringJobId }
  let reg1 := registry.filter fun j => !(j.jobId == monitoringJobId)
  if config.enabled then
    if config.trigger_folder_id.isEmpty then
      (⟨false, strL "Trigger folder ID is not set. Monitoring cannot start.", none⟩,
        { st1 with
          is_monitoring_active := false
          error_message := some (strL "Trigger folder ID is not set. Monitoring cannot start.") },
        reg1)
    else
      (⟨true, strL "Monitoring enabled.", some monitoringJobId⟩,
        { st1 with is_monitoring_active := true, error_message := none },
        reg1 ++ [⟨monitoringJobId, config.monitoring_frequency_minutes⟩])
  else
    (⟨true, strL "Monitoring disabled.", none⟩,
      { st1 with is_monitoring_active := false }, reg1)

/-! ## Email scheduler: `EmailScheduler` (src/app/services/scheduler.py) -/

/-- The `misfire_grace_time` passed by `schedule_email`
(scheduler.py line 50): 3600 seconds. -/
def emailMisfireGrace : Int := 3600

/-- The scheduled handler `send_scheduled_email` (scheduler.py line 30)
declares one required positional parameter, `job_id`. -/
def sendScheduledEmailRequiredArgs : Nat := 1

/-- The `add_job` call of `schedule_email` (scheduler.py lines 46-51)
supplies no positional arguments for the handler. -/
def scheduleEmailSuppliedArgs : Nat := 0

/-- Outcome of attempting to schedule and, if accepted, run a one-shot
email job: whether `add_job` accepted it, whether the email record was
saved, how many times the handler body executed, and the stored record
status (`none` when no record exists). -/
structure EmailJobOutcome where
  scheduleAccepted : Bool
  dbRecordCreated : Bool
  handlerBodyRuns : Nat
  storedStatus : Option Str
deriving DecidableEq

/-- Modelled from the spec: the scheduling and misfire behavior of the
third-party APScheduler dependency (code not under src/), combined with
the repository handler.  `add_job` validates the handler's required
positional arguments against the supplied ones and raises when any is
missing, so such a job is rejected synchronously: it never enters the
registry, `schedule_email` propagates the error before reaching
`save_scheduled_email`, and the handler never executes (a zero-argument
invocation could not bind `job_id` anyway).  For an accepted job, a due
fire time within the grace window invokes the handler once — whose body
(scheduler.py lines 31-44) sets the stored status to `sent` on success
and `failed` on a send exception, the record having been created as
`pending` (`save_scheduled_email`, database.py line 68) — while a
lateness beyond the grace window discards the job without invoking the
handler and with no repository code running (no missed-job listener is
registered). -/
def scheduleAndRunEmailJob (now runDate grace : Int)
    (requiredArgs suppliedArgs : Nat) (sendOk : Bool) : EmailJobOutcome :=
  if suppliedArgs < requiredArgs then ⟨false, false, 0, none⟩
  else if runDate ≤ now then
    if now - runDate > grace then ⟨true, true, 0, some (strL "pending")⟩
    else if sendOk then ⟨true, true, 1, some (strL "sent")⟩
    else ⟨true, true, 1, some (strL "failed")⟩
  else ⟨true, true, 0, some (strL "pending")⟩

/-- Embeds `cancel_scheduled_email` (scheduler.py lines 71-77): remove the job if
present; a missing id makes `remove_job` raise `JobLookupError`, which is
caught and returned as a failure dict with the error text (message per
APScheduler), so the method returns in both cases instead of raising. -/
def cancel_scheduled_email (jobs : List (Str × Int)) (jobId : Str) :
    (Bool × Str) × List (Str × Int) :=
  if jobs.any fun j => j.1 == jobId then
    ((true, strL "Scheduled email " ++ jobId ++ strL " cancelled"),
      jobs.filter fun j => !(j.1 == jobId))
  else
    ((false, strL "No job by the id of " ++ jobId ++ strL " was found"), jobs)

/-- Embeds `list_scheduled_emails` (scheduler.py lines 79-86): one summary per
registry job, with status `pending`. -/
def list_scheduled_emails (jobs : List (Str × Int)) : List (Str × Int × Str) :=
  jobs.map fun j => (j.1, j.2, strL "pending")

/-! ## Concrete fixtures used by counterexamples and witnesses -/

/-- A fully-populated monitoring configuration with a backup folder. -/
def cfgA : MonitoringConfigRequest :=
  { enabled := true, trigger_folder_id := strL "TRIG", backup_folder_id := strL "BAK",
    spreadsheet_id := strL "S", monitoring_frequency_minutes := 5,
    status_column_name := some (strL "Status"), sheet_name := strL "Sheet1",
    slides_template_id := strL "T", recipient_email := strL "a@x.com",
    column_mappings := none, process_flag_column := none,
    process_flag_value := some (strL "yes"), background_image_id := none }

/-- An active monitoring state that has already processed an image. -/
def stA : MonState :=
  { current_config := some cfgA, last_check_timestamp := some 1,
    last_processed_image_name := some (strL "old.png"),
    last_processed_image_status := some (strL "Processed and Moved"),
    last_processed_timestamp := some 1, error_message := none,
    is_monitoring_active := true, active_job_id := some monitoringJobId }

/-- The fresh monitoring state of `FolderMonitoringService.__init__`. -/
def stFresh : MonState :=
  { current_config := none, last_check_timestamp := none,
    last_processed_image_name := none, last_processed_image_status := none,
    last_processed_timestamp := none, error_message := none,
    is_monitoring_active := false, active_job_id := none }

/-- A successful `generate_posts` result dict. -/
def genOk : GenResult := ⟨true, 1, strL "ok", none⟩

/-- The configuration `cfgA` with a sub-minute monitoring frequency. -/
def cfgBad : MonitoringConfigRequest := { cfgA with monitoring_frequency_minutes := 0 }

/-- Row-processor input: headers `["Name"]`, one data row, a mapping onto
the `Name` column, and a status column name `Outcome` absent from the
headers. -/
def inpC3 : GenInput :=
  { spreadsheet_id := strL "S", sheet_name := strL "Sheet1",
    slides_template_id := strL "T",
    sheetData := [[strL "Name"], [strL "Alice"]],
    columnMappings := some [(strL "\x7b\x7bNAME\x7d\x7d", strL "Name")],
    processFlagColumn := none, processFlagValue := strL "yes",
    updateStatusColumn := some (strL "Outcome"),
    recipientEmail := strL "a@x.com",
    driveFolderId := some (strL "F"), backupFolderId := none,
    backgroundImageId := none, imageUrl := none }

/-- Row-processor input with no process-flag column and no status column:
headers `["Name", "Extra"]`, three data rows of which two carry mapped
content and one is blank. -/
def inpC7 : GenInput :=
  { inpC3 with
    sheetData := [[strL "Name", strL "Extra"],
      [strL "Alice", strL "x"], [strL "  ", strL "y"], [strL "Bob"]],
    updateStatusColumn := none }

end Mairu

namespace Mairu

/-! ## Helper lemmas -/

theorem toLower_of_space {c : Char} (h : isPySpace c = true) : c.toLower = c := by
  simp only [isPySpace, Bool.or_eq_true, beq_iff_eq] at h
  rcases h with ((((h | h) | h) | h) | h) | h <;> subst h <;> decide

theorem pyLower_of_spaces {w : Str} (h : ∀ c ∈ w, isPySpace c = true) :
    pyLower w = w := by
  induction w with
  | nil => rfl
  | cons c t ih =>
    simp only [pyLower, List.map_cons]
    refine congrArg₂ _ (toLower_of_space (h c (List.mem_cons_self c t))) ?_
    exact ih fun x hx => h x (List.mem_cons_of_mem _ hx)

theorem dropWhile_append_of_all {p : Char → Bool} {w l : Str}
    (h : ∀ c ∈ w, p c = true) : (w ++ l).dropWhile p = l.dropWhile p := by
  induction w with
  | nil => rfl
  | cons c t ih =>
    simp only [List.cons_append, List.dropWhile_cons, h c (List.mem_cons_self c t), if_true]
    exact ih fun x hx => h x (List.mem_cons_of_mem _ hx)

theorem dropWhile_eq_nil_of_all {p : Char → Bool} {w : Str}
    (h : ∀ c ∈ w, p c = true) : w.dropWhile p = [] := by
  have := dropWhile_append_of_all (l := []) h
  simpa using this

theorem pyStrip_append_left {w s : Str} (h : ∀ c ∈ w, isPySpace c = true) :
    pyStrip (w ++ s) = pyStrip s := by
  simp only [pyStrip, dropWhile_append_of_all h]

theorem pyStrip_append_right {w s : Str} (h : ∀ c ∈ w, isPySpace c = true) :
    pyStrip (s ++ w) = pyStrip s := by
  have hw : ∀ c ∈ w.reverse, isPySpace c = true := fun c hc =>
    h c (List.mem_reverse.mp hc)
  by_cases hs : s.dropWhile isPySpace = []
  · have hsw : (s ++ w).dropWhile isPySpace = [] := by
      have h1 : (s ++ w).dropWhile isPySpace = w.dropWhile isPySpace := by
        induction s with
        | nil => rfl
        | cons c t ih =>
          by_cases hc : isPySpace c = true
          · simp only [List.dropWhile_cons, hc, if_true] at hs ⊢
            simp only [List.cons_append, List.dropWhile_cons, hc, if_true]
            exact ih hs
          · simp only [List.dropWhile_cons, hc] at hs
            simp at hs
      rw [h1]
      exact dropWhile_eq_nil_of_all h
    simp only [pyStrip, hs, hsw, List.reverse_nil, List.dropWhile_nil]
  · have h1 : (s ++ w).dropWhile isPySpace = s.dropWhile isPySpace ++ w := by
      induction s with
      | nil => exact absurd rfl hs
      | cons c t ih =>
        by_cases hc : isPySpace c = true
        · simp only [List.dropWhile_cons, hc, if_true] at hs ⊢
          simp only [List.cons_append, List.dropWhile_cons, hc, if_true]
          exact ih hs
        · simp only [List.dropWhile_cons, hc] at hs ⊢
          simp only [List.cons_append, List.dropWhile_cons, hc]
          simp
    simp only [pyStrip, h1, List.reverse_append, dropWhile_append_of_all hw]

theorem pyStrip_wrap {w1 w2 s : Str} (h1 : ∀ c ∈ w1, isPySpace c = true)
    (h2 : ∀ c ∈ w2, isPySpace c = true) :
    pyStrip (w1 ++ s ++ w2) = pyStrip s := by
  rw [List.append_assoc, pyStrip_append_left h1, pyStrip_append_right h2]

/-! ## C1: zero-file folder-watch cycle -/

/-- Claim C1 counterexample: a zero-file cycle does not leave
`last_processed_image_name` unchanged — starting from a state that last
processed `old.png`, the cycle resets the field to `None`. -/
theorem c1_zero_files_name_changed :
    (checkTriggerFolder stA 10 11 (Except.ok []) (Except.ok ())
        (Except.ok genOk) (Except.ok ())).state.last_processed_image_name ≠
      stA.last_processed_image_name := by decide

/-- Claim C1 (amended): a folder-watch cycle whose file listing returns
zero files clears `error_message` and also clears
`last_processed_image_name` (sets it to `None`, rather than leaving it
unchanged); the status, last-processed timestamp, config and activity flag
are untouched, no Drive operation is issued, and the check timestamp is
refreshed. -/
theorem c1_zero_files_cycle (st : MonState) (now now2 : Int)
    (instaInit : Except Str Unit) (gen : Except Str GenResult)
    (mv : Except Str Unit) (cfg : MonitoringConfigRequest)
    (hc : st.current_config = some cfg) (ha : st.is_monitoring_active = true) :
    (checkTriggerFolder st now now2 (Except.ok []) instaInit gen mv).state.last_processed_image_name = none ∧
    (checkTriggerFolder st now now2 (Except.ok []) instaInit gen mv).state.error_message = none ∧
    (checkTriggerFolder st now now2 (Except.ok []) instaInit gen mv).state.last_check_timestamp = some now ∧
    (checkTriggerFolder st now now2 (Except.ok []) instaInit gen mv).state.last_processed_image_status = st.last_processed_image_status ∧
    (checkTriggerFolder st now now2 (Except.ok []) instaInit gen mv).state.last_processed_timestamp = st.last_processed_timestamp ∧
    (checkTriggerFolder st now now2 (Except.ok []) instaInit gen mv).state.is_monitoring_active = st.is_monitoring_active ∧
    (checkTriggerFolder st now now2 (Except.ok []) instaInit gen mv).state.current_config = st.current_config ∧
    (checkTriggerFolder st now now2 (Except.ok []) instaInit gen mv).ops = [] ∧
    (checkTriggerFolder st now now2 (Except.ok []) instaInit gen mv).removedFromTrigger = false := by
  simp [checkTriggerFolder, hc, ha]

/-- Witness for `c1_zero_files_cycle` at the concrete state `stA`. -/
theorem c1_zero_files_cycle_witness :
    (checkTriggerFolder stA 10 11 (Except.ok []) (Except.ok ())
        (Except.ok genOk) (Except.ok ())).state.last_processed_image_name = none ∧
    (checkTriggerFolder stA 10 11 (Except.ok []) (Except.ok ())
        (Except.ok genOk) (Except.ok ())).state.error_message = none := by
  have h := c1_zero_files_cycle stA 10 11 (Except.ok ()) (Except.ok genOk)
    (Except.ok ()) cfgA (by decide) (by decide)
  exact ⟨h.1, h.2.1⟩

/-! ## C2: backup step of a successful folder-watch cycle -/

/-- Claim C2 counterexample: on a successful generation cycle with a backup
folder configured, the trigger file is removed from the trigger folder
(relocated by a single `move_file` call) although no copy into the backup
folder is ever issued — there is no copy-first-then-remove ordering. -/
theorem c2_no_copy_before_removal :
    (checkTriggerFolder stA 10 11 (Except.ok [⟨strL "f1", strL "img.png"⟩])
        (Except.ok ()) (Except.ok genOk) (Except.ok ())).removedFromTrigger = true ∧
    (checkTriggerFolder stA 10 11 (Except.ok [⟨strL "f1", strL "img.png"⟩])
        (Except.ok ()) (Except.ok genOk) (Except.ok ())).ops.all
      (fun op => !op.isCopy) = true := by decide

/-- Claim C2 (amended): on a successful generation cycle with a backup
folder configured, the backup step is a single `move_file` attempt (never a
copy); if the move fails the recorded status is `Processing OK, Move
Failed`, the error message records the failure, and the file remains in the
trigger folder; if the move succeeds the status is `Processed and Moved`
and the file is relocated out of the trigger folder. -/
theorem c2_backup_is_single_move (st : MonState) (now now2 : Int)
    (f : DriveFile) (rest : List DriveFile) (res : GenResult)
    (mv : Except Str Unit) (cfg : MonitoringConfigRequest)
    (hc : st.current_config = some cfg) (ha : st.is_monitoring_active = true)
    (hs : res.success = true) (hb : cfg.backup_folder_id ≠ []) :
    (checkTriggerFolder st now now2 (Except.ok (f :: rest)) (Except.ok ())
        (Except.ok res) mv).ops = [DriveOp.moveFile f.id cfg.backup_folder_id] ∧
    (∀ op ∈ (checkTriggerFolder st now now2 (Except.ok (f :: rest)) (Except.ok ())
        (Except.ok res) mv).ops, op.isCopy = false) ∧
    (∀ e, mv = Except.error e →
      (checkTriggerFolder st now now2 (Except.ok (f :: rest)) (Except.ok ())
          (Except.ok res) mv).state.last_processed_image_status =
        some (strL "Processing OK, Move Failed") ∧
      (checkTriggerFolder st now now2 (Except.ok (f :: rest)) (Except.ok ())
          (Except.ok res) mv).state.error_message =
        some (strL "Post generated, but failed to move file: " ++ e) ∧
      (checkTriggerFolder st now now2 (Except.ok (f :: rest)) (Except.ok ())
          (Except.ok res) mv).removedFromTrigger = false) ∧
    (mv = Except.ok () →
      (checkTriggerFolder st now now2 (Except.ok (f :: rest)) (Except.ok ())
          (Except.ok res) mv).state.last_processed_image_status =
        some (strL "Processed and Moved") ∧
      (checkTriggerFolder st now now2 (Except.ok (f :: rest)) (Except.ok ())
          (Except.ok res) mv).removedFromTrigger = true) := by
  have hbe : cfg.backup_folder_id.isEmpty = false := by
    cases hcb : cfg.backup_folder_id with
    | nil => exact absurd hcb hb
    | cons a l => rfl
  cases mv with
  | ok u =>
    cases u
    refine ⟨?_, ?_, ?_, ?_⟩ <;>
      simp [checkTriggerFolder, hc, ha, hs, hbe, DriveOp.isCopy]
  | error e =>
    refine ⟨?_, ?_, ?_, ?_⟩ <;>
      simp [checkTriggerFolder, hc, ha, hs, hbe, DriveOp.isCopy]

/-- Witness for `c2_backup_is_single_move` at the concrete state `stA`
with a failing move. -/
theorem c2_backup_is_single_move_witness :
    (checkTriggerFolder stA 10 11 (Except.ok [⟨strL "f1", strL "img.png"⟩])
        (Except.ok ()) (Except.ok genOk)
        (Except.error (strL "boom"))).state.last_processed_image_status =
      some (strL "Processing OK, Move Failed") ∧
    (checkTriggerFolder stA 10 11 (Except.ok [⟨strL "f1", strL "img.png"⟩])
        (Except.ok ()) (Except.ok genOk)
        (Except.error (strL "boom"))).removedFromTrigger = false := by
  have h := c2_backup_is_single_move stA 10 11 ⟨strL "f1", strL "img.png"⟩ []
    genOk (Except.error (strL "boom")) cfgA (by decide) (by decide) (by decide)
    (by decide)
  exact ⟨(h.2.2.1 (strL "boom") rfl).1, (h.2.2.1 (strL "boom") rfl).2.2⟩

/-! ## C4: folder-watch configuration with a sub-minute interval -/

/-- Claim C4 counterexample: a configuration request with
`monitoring_frequency_minutes = 0` is not rejected — the call reports
success and the job enters the scheduler registry with interval 0. -/
theorem c4_interval_zero_accepted :
    (update_configuration stFresh [] cfgBad).1.success = true ∧
    SchedulerJob.mk monitoringJobId 0 ∈ (update_configuration stFresh [] cfgBad).2.2 := by
  decide

/-- Claim C4 (amended): `update_configuration` performs no validation of
the monitoring interval: for any enabled configuration whose trigger folder
id is non-empty — in particular one whose interval is below 1 — the call
reports success and the monitoring job is scheduled with exactly the given
interval. The only synchronous rejection is an empty trigger folder id. -/
theorem c4_no_interval_validation (st : MonState) (registry : List SchedulerJob)
    (config : MonitoringConfigRequest) (he : config.enabled = true)
    (ht : config.trigger_folder_id ≠ [])
    (hlow : config.monitoring_frequency_minutes < 1) :
    (update_configuration st registry config).1.success = true ∧
    (update_configuration st registry config).1.message = strL "Monitoring enabled." ∧
    SchedulerJob.mk monitoringJobId config.monitoring_frequency_minutes ∈
      (update_configuration st registry config).2.2 := by
  have hte : config.trigger_folder_id.isEmpty = false := by
    cases hcb : config.trigger_folder_id with
    | nil => exact absurd hcb ht
    | cons a l => rfl
  refine ⟨?_, ?_, ?_⟩ <;> simp [update_configuration, he, hte]

/-- Witness for `c4_no_interval_validation` at the concrete configuration
`cfgBad` (interval 0). -/
theorem c4_no_interval_validation_witness :
    cfgBad.monitoring_frequency_minutes < 1 ∧
    (update_configuration stFresh [] cfgBad).1.success = true ∧
    SchedulerJob.mk monitoringJobId cfgBad.monitoring_frequency_minutes ∈
      (update_configuration stFresh [] cfgBad).2.2 := by
  have h := c4_no_interval_validation stFresh [] cfgBad (by decide) (by decide)
    (by decide)
  exact ⟨by decide, h.1, h.2.2⟩

/-! ## C5: one-shot email job with a past fire time -/

/-- Claim C5 counterexample: at the repository's actual handler and
argument counts, a one-shot email job with fire time 100 s past (within
the 3600 s grace window) is rejected at `add_job` time: its handler
executes zero times, not exactly once, and no status is ever stored; the
same holds 10000 s past (beyond the window), where nothing is marked
Failed with a missed-window reason either. -/
theorem c5_handler_never_executes :
    (scheduleAndRunEmailJob 100 0 emailMisfireGrace
        sendScheduledEmailRequiredArgs scheduleEmailSuppliedArgs true).handlerBodyRuns = 0 ∧
    (scheduleAndRunEmailJob 100 0 emailMisfireGrace
        sendScheduledEmailRequiredArgs scheduleEmailSuppliedArgs true).handlerBodyRuns ≠ 1 ∧
    (scheduleAndRunEmailJob 100 0 emailMisfireGrace
        sendScheduledEmailRequiredArgs scheduleEmailSuppliedArgs true).storedStatus = none ∧
    (scheduleAndRunEmailJob 10000 0 emailMisfireGrace
        sendScheduledEmailRequiredArgs scheduleEmailSuppliedArgs true).handlerBodyRuns = 0 ∧
    (scheduleAndRunEmailJob 10000 0 emailMisfireGrace
        sendScheduledEmailRequiredArgs scheduleEmailSuppliedArgs true).storedStatus = none := by
  decide

/-- Claim C5 (amended): scheduling a one-shot email fails synchronously
for every fire time and send outcome: the handler requires `job_id` but
the `add_job` call supplies no arguments, so the job is rejected at add
time — it never enters the registry, no email record is created, the
handler body never executes (neither within nor beyond the grace window),
and nothing is ever marked Failed with a missed-window reason. -/
theorem c5_schedule_rejected (now runDate : Int) (sendOk : Bool) :
    (scheduleAndRunEmailJob now runDate emailMisfireGrace
        sendScheduledEmailRequiredArgs scheduleEmailSuppliedArgs sendOk).scheduleAccepted = false ∧
    (scheduleAndRunEmailJob now runDate emailMisfireGrace
        sendScheduledEmailRequiredArgs scheduleEmailSuppliedArgs sendOk).dbRecordCreated = false ∧
    (scheduleAndRunEmailJob now runDate emailMisfireGrace
        sendScheduledEmailRequiredArgs scheduleEmailSuppliedArgs sendOk).handlerBodyRuns = 0 ∧
    (scheduleAndRunEmailJob now runDate emailMisfireGrace
        sendScheduledEmailRequiredArgs scheduleEmailSuppliedArgs sendOk).storedStatus = none := by
  refine ⟨?_, ?_, ?_, ?_⟩ <;>
    simp [scheduleAndRunEmailJob, sendScheduledEmailRequiredArgs, scheduleEmailSuppliedArgs]

/-! ## C9: cancelling scheduled email jobs -/

/-- Claim C9: cancelling a pending scheduled-email job removes it from the
listing; cancelling a job id that is not in the registry returns a
failure result with a non-empty message (the caught `JobLookupError` text)
and leaves the registry unchanged — the service method returns a result in
both cases rather than raising. -/
theorem c9_cancel_semantics (jobs : List (Str × Int)) (jobId : Str) :
    ((jobs.any fun j => j.1 == jobId) = true →
      (cancel_scheduled_email jobs jobId).1.1 = true ∧
      ∀ e ∈ list_scheduled_emails (cancel_scheduled_email jobs jobId).2,
        e.1 ≠ jobId) ∧
    ((jobs.any fun j => j.1 == jobId) = false →
      (cancel_scheduled_email jobs jobId).1.1 = false ∧
      (cancel_scheduled_email jobs jobId).1.2 ≠ [] ∧
      (cancel_scheduled_email jobs jobId).2 = jobs) := by
  constructor
  · intro h
    refine ⟨by simp [cancel_scheduled_email, h], ?_⟩
    intro e he
    simp only [cancel_scheduled_email, h, if_true, list_scheduled_emails,
      List.mem_map, List.mem_filter] at he
    obtain ⟨j, ⟨_, hj⟩, rfl⟩ := he
    simpa using hj
  · intro h
    refine ⟨by simp [cancel_scheduled_email, h], ?_, by simp [cancel_scheduled_email, h]⟩
    simp [cancel_scheduled_email, h, strL]

/-- Witness for `c9_cancel_semantics`: a registry holding job `a`;
cancelling `a` succeeds and empties the listing, cancelling `b` fails
without touching the registry. -/
theorem c9_cancel_semantics_witness :
    ((cancel_scheduled_email [(strL "a", 5)] (strL "a")).1.1 = true ∧
      list_scheduled_emails (cancel_scheduled_email [(strL "a", 5)] (strL "a")).2 = []) ∧
    ((cancel_scheduled_email [(strL "a", 5)] (strL "b")).1.1 = false ∧
      (cancel_scheduled_email [(strL "a", 5)] (strL "b")).2 = [(strL "a", 5)]) := by
  have h1 := (c9_cancel_semantics [(strL "a", 5)] (strL "a")).1 (by decide)
  have h2 := (c9_cancel_semantics [(strL "a", 5)] (strL "b")).2 (by decide)
  exact ⟨⟨h1.1, by decide⟩, ⟨h2.1, h2.2.2⟩⟩

/-! ## Row-processor lemmas -/

/-- With no resolved flag column (index `-1`), every row stays eligible. -/
theorem shouldProcessRow_neg_one (fv : Str) (row : List Str) :
    shouldProcessRow (-1) fv row = true := by
  simp [shouldProcessRow]

/-- Every cell write emitted by the row loop started at index `i` targets
sheet row `i + 1` or later. -/
theorem processRows_writes_row_ge (mi : List (Str × Nat)) (fIdx : Int) (fv : Str)
    (sIdx : Int) (render : Nat → Option (Nat × Nat)) (ob : Nat → Option Nat)
    (dob : Bool) (rows : List (List Str)) (i : Nat) (w : CellWrite)
    (hw : w ∈ (processRows mi fIdx fv sIdx render ob dob i rows).2.2.2) :
    i + 1 ≤ w.1 := by
  induction rows generalizing i with
  | nil => simp [processRows] at hw
  | cons row rest ih =>
    have hmem : ∀ v, w ∈ statusWrite sIdx i v → i + 1 ≤ w.1 := by
      intro v hv
      simp only [statusWrite] at hv
      split at hv
      · simp only [List.mem_singleton] at hv
        subst hv
        exact le_refl _
      · simp at hv
    have hrec : w ∈ (processRows mi fIdx fv sIdx render ob dob (i + 1) rest).2.2.2 →
        i + 1 ≤ w.1 := fun h => Nat.le_of_succ_le (ih (i + 1) h)
    simp only [processRows] at hw
    split at hw
    · rcases List.mem_append.mp hw with h | h
      · exact hmem _ h
      · exact hrec h
    · split at hw
      · rcases List.mem_append.mp hw with h | h
        · exact hmem _ h
        · exact hrec h
      · rcases hr : render i with _ | ids <;> rw [hr] at hw
        · rcases List.mem_append.mp hw with h | h
          · rcases List.mem_append.mp h with h2 | h2
            · exact hmem _ h2
            · exact hmem _ h2
          · exact hrec h
        · rcases List.mem_append.mp hw with h | h
          · rcases List.mem_append.mp h with h2 | h2
            · exact hmem _ h2
            · exact hmem _ h2
          · exact hrec h

/-- Every row loop iteration increments exactly one of the two counters:
processed plus skipped equals the number of data rows. -/
theorem processRows_count (mi : List (Str × Nat)) (fIdx : Int) (fv : Str)
    (sIdx : Int) (render : Nat → Option (Nat × Nat)) (ob : Nat → Option Nat)
    (dob : Bool) (rows : List (List Str)) (i : Nat) :
    (processRows mi fIdx fv sIdx render ob dob i rows).1 +
      (processRows mi fIdx fv sIdx render ob dob i rows).2.1 = rows.length := by
  induction rows generalizing i with
  | nil => simp [processRows]
  | cons row rest ih =>
    have h := ih (i + 1)
    simp only [processRows, List.length_cons]
    split
    · dsimp only
      omega
    · split
      · dsimp only
        omega
      · rcases hr : render i with _ | ids <;> dsimp only <;> omega

/-- The generated-files list grows exactly with the processed counter. -/
theorem processRows_files_length (mi : List (Str × Nat)) (fIdx : Int) (fv : Str)
    (sIdx : Int) (render : Nat → Option (Nat × Nat)) (ob : Nat → Option Nat)
    (dob : Bool) (rows : List (List Str)) (i : Nat) :
    (processRows mi fIdx fv sIdx render ob dob i rows).2.2.1.length =
      (processRows mi fIdx fv sIdx render ob dob i rows).1 := by
  induction rows generalizing i with
  | nil => simp [processRows]
  | cons row rest ih =>
    have h := ih (i + 1)
    simp only [processRows]
    split
    · exact h
    · split
      · exact h
      · rcases hr : render i with _ | ids <;> simp [h]

/-- With no flag column and a renderer that succeeds on every row, the
processed counter counts exactly the rows with mapped content. -/
theorem processRows_processed_no_flag (mi : List (Str × Nat)) (fv : Str)
    (sIdx : Int) (render : Nat → Option (Nat × Nat)) (ob : Nat → Option Nat)
    (dob : Bool) (rows : List (List Str)) (i : Nat)
    (hr : ∀ j, (render j).isSome = true) :
    (processRows mi (-1) fv sIdx render ob dob i rows).1 =
      rows.countP (fun row => rowHasContent mi row) := by
  induction rows generalizing i with
  | nil => simp [processRows]
  | cons row rest ih =>
    have h := ih (i + 1)
    simp only [processRows, shouldProcessRow_neg_one]
    by_cases hc : (rowReplacements mi row).isEmpty
    · have hct : rowHasContent mi row = false := by
        simp [rowHasContent, hc]
      simp [hc, h, List.countP_cons, hct]
    · have hct : rowHasContent mi row = true := by
        simp [rowHasContent, hc]
      rcases hrs : render i with _ | ids
      · exact absurd (hr i) (by simp [hrs])
      · simp [hc, hrs, h, List.countP_cons, hct]

/-- Past the no-data early return, the writes of `generate_posts` are the
status-setup writes, possibly followed by the row-loop writes. -/
theorem generate_posts_writes (inp : GenInput) (render : Nat → Option (Nat × Nat))
    (ob : Nat → Option Nat) (emailOk : Bool) (hnl : ¬ inp.sheetData.length ≤ 1) :
    (generate_posts inp render ob emailOk).2 = (genStatusSetup inp).2 ∨
    (generate_posts inp render ob emailOk).2 =
      (genStatusSetup inp).2 ++ (genLoop inp render ob).2.2.2 := by
  unfold generate_posts
  rw [if_neg hnl]
  by_cases hmi : (genMappingIndices inp).isEmpty
  · left
    simp [hmi]
  · by_cases htf : (!optTruthy inp.backupFolderId && !optTruthy inp.driveFolderId) = true
    · left
      simp [hmi, htf]
    · right
      simp only [Bool.not_eq_true] at htf
      by_cases hfs : (genLoop inp render ob).2.2.1.isEmpty
      · simp [hmi, htf, hfs]
      · cases emailOk <;> simp [hmi, htf, hfs]

/-- The delivery-failed and delivery-succeeded batch messages differ. -/
theorem emailFailMessage_ne_emailOkMessage (n : Nat) (r : Str) (k : Nat) :
    emailFailMessage n r k ≠ emailOkMessage n r k := by
  intro h
  unfold emailFailMessage emailOkMessage at h
  have h2 := List.append_cancel_left h
  have h3 : (some 'b' : Option Char) = some 'a' := congrArg List.head? h2
  exact absurd h3 (by decide)

/-! ## C3: status-column auto-provisioning -/

/-- Claim C3 counterexample: with status-column name `Outcome` absent from
the headers, the appended header cell is the literal text `Status`, not the
given name — no write in the whole run carries the value `Outcome`. -/
theorem c3_header_is_literal_status :
    (generate_posts inpC3 (fun _ => some (7, 8)) (fun _ => none) true).2 =
      [(1, 2, strL "Status"), (2, 2, strL "Processing..."), (2, 2, strL "Sent")] ∧
    (∀ w ∈ (generate_posts inpC3 (fun _ => some (7, 8)) (fun _ => none) true).2,
      w.2.2 ≠ strL "Outcome") := by decide

/-- Claim C3 (amended): when the given status-column name resolves to no
header, the processor does append a trailing header cell at the first
column past the existing headers, and it does so before any per-row status
write — but the header text written is the literal `Status`, not the given
name. -/
theorem c3_status_header_first (inp : GenInput)
    (render : Nat → Option (Nat × Nat)) (origBackup : Nat → Option Nat)
    (emailOk : Bool) (name : Str) (hlen : 2 ≤ inp.sheetData.length)
    (hcol : inp.updateStatusColumn = some name) (hname : name ≠ [])
    (hmiss : findColumnIndex (genHeaders inp) name = -1) :
    ∃ rws, (generate_posts inp render origBackup emailOk).2 =
      (1, (genHeaders inp).length + 1, strL "Status") :: rws ∧
      ∀ w ∈ rws, 2 ≤ w.1 := by
  have hne : name.isEmpty = false := by
    cases hc : name with
    | nil => exact absurd hc hname
    | cons a l => rfl
  have hsetup : (genStatusSetup inp).2 =
      [(1, (genHeaders inp).length + 1, strL "Status")] := by
    simp [genStatusSetup, statusColumnSetup, hcol, optTruthy, hne, hmiss]
  have hnl : ¬ inp.sheetData.length ≤ 1 := by omega
  rcases generate_posts_writes inp render origBackup emailOk hnl with h | h
  · refine ⟨[], ?_, by simp⟩
    rw [h, hsetup]
  · refine ⟨(genLoop inp render origBackup).2.2.2, ?_, ?_⟩
    · rw [h, hsetup]
      rfl
    · intro w hw
      exact processRows_writes_row_ge _ _ _ _ _ _ _ _ 1 w hw

/-- Witness for `c3_status_header_first` at the concrete input `inpC3`. -/
theorem c3_status_header_first_witness :
    ∃ rws, (generate_posts inpC3 (fun _ => some (7, 8)) (fun _ => none) true).2 =
      (1, (genHeaders inpC3).length + 1, strL "Status") :: rws ∧
      ∀ w ∈ rws, 2 ≤ w.1 := by
  exact c3_status_header_first inpC3 (fun _ => some (7, 8)) (fun _ => none) true
    (strL "Outcome") (by decide) rfl (by decide) (by decide)

/-! ## C6: delivery failure after successful rendering -/

/-- Claim C6: when rendering succeeds for `N ≥ 1` rows and the single
delivery call fails, the returned summary still reports `success = true`
and `count = N`, its files list is exactly the `N` rendered artifacts, and
its message differs from the message of the all-succeeded run. -/
theorem c6_delivery_failure_summary (inp : GenInput)
    (render : Nat → Option (Nat × Nat)) (origBackup : Nat → Option Nat)
    (N : Nat) (hlen : 2 ≤ inp.sheetData.length)
    (hmi : (genMappingIndices inp).isEmpty = false)
    (htf : (optTruthy inp.backupFolderId || optTruthy inp.driveFolderId) = true)
    (hN : (genLoop inp render origBackup).2.2.1.length = N) (hpos : 1 ≤ N) :
    (generate_posts inp render origBackup false).1.success = true ∧
    (generate_posts inp render origBackup false).1.count = N ∧
    (generate_posts inp render origBackup false).1.files =
      some (genLoop inp render origBackup).2.2.1 ∧
    (generate_posts inp render origBackup false).1.message ≠
      (generate_posts inp render origBackup true).1.message := by
  have hnl : ¬ inp.sheetData.length ≤ 1 := by omega
  have htf2 : (!optTruthy inp.backupFolderId && !optTruthy inp.driveFolderId) = false := by
    rw [← Bool.not_or, htf]
    rfl
  have hfs : (genLoop inp render origBackup).2.2.1.isEmpty = false := by
    cases hc : (genLoop inp render origBackup).2.2.1 with
    | nil => rw [hc] at hN; simp at hN; omega
    | cons a l => rfl
  have hfail : (generate_posts inp render origBackup false).1 =
      ⟨true, (genLoop inp render origBackup).2.2.1.length,
        emailFailMessage (genLoop inp render origBackup).2.2.1.length
          inp.recipientEmail (genLoop inp render origBackup).2.1,
        some (genLoop inp render origBackup).2.2.1⟩ := by
    unfold generate_posts
    rw [if_neg hnl]
    simp [hmi, htf2, hfs]
  have hok : (generate_posts inp render origBackup true).1 =
      ⟨true, (genLoop inp render origBackup).2.2.1.length,
        emailOkMessage (genLoop inp render origBackup).2.2.1.length
          inp.recipientEmail (genLoop inp render origBackup).2.1,
        some (genLoop inp render origBackup).2.2.1⟩ := by
    unfold generate_posts
    rw [if_neg hnl]
    simp [hmi, htf2, hfs]
  rw [hfail, hok]
  exact ⟨rfl, hN, rfl, by simpa using emailFailMessage_ne_emailOkMessage _ _ _⟩

/-- Witness for `c6_delivery_failure_summary` at the concrete input
`inpC3` (one row renders, delivery fails). -/
theorem c6_delivery_failure_summary_witness :
    (generate_posts inpC3 (fun _ => some (7, 8)) (fun _ => none) false).1.success = true ∧
    (generate_posts inpC3 (fun _ => some (7, 8)) (fun _ => none) false).1.count = 1 ∧
    (generate_posts inpC3 (fun _ => some (7, 8)) (fun _ => none) false).1.message ≠
      (generate_posts inpC3 (fun _ => some (7, 8)) (fun _ => none) true).1.message := by
  have h := c6_delivery_failure_summary inpC3 (fun _ => some (7, 8)) (fun _ => none)
    1 (by decide) (by decide) (by decide) (by decide) (by decide)
  exact ⟨h.1, h.2.1, h.2.2.2⟩

/-! ## C7: counts with no process-flag column -/

/-- Claim C7: with no process-flag column configured the resolved flag
index is `-1`, every loop iteration increments exactly one of the two
counters (`processed + skipped` equals the number of data rows), and when
the renderer succeeds on every row the processed counter counts exactly
the rows with at least one non-empty mapped value. -/
theorem c7_no_flag_all_content_processed (headers : List Str)
    (mi : List (Str × Nat)) (fv : Str) (sIdx : Int)
    (render : Nat → Option (Nat × Nat)) (ob : Nat → Option Nat) (dob : Bool)
    (i : Nat) (rows : List (List Str)) :
    processFlagIdxOf headers none = -1 ∧
    (processRows mi (-1) fv sIdx render ob dob i rows).1 +
      (processRows mi (-1) fv sIdx render ob dob i rows).2.1 = rows.length ∧
    ((∀ j, (render j).isSome = true) →
      (processRows mi (-1) fv sIdx render ob dob i rows).1 =
        rows.countP (fun row => rowHasContent mi row)) :=
  ⟨by simp [processFlagIdxOf, optTruthy],
    processRows_count mi (-1) fv sIdx render ob dob rows i,
    fun hr => processRows_processed_no_flag mi fv sIdx render ob dob rows i hr⟩

/-- Witness for `c7_no_flag_all_content_processed`: three data rows, two
with mapped content, a renderer that always succeeds. -/
theorem c7_no_flag_all_content_processed_witness :
    (processRows [(strL "\x7b\x7bNAME\x7d\x7d", 0)] (-1) (strL "yes") (-1)
        (fun _ => some (7, 8)) (fun _ => none) false 1
        [[strL "Alice", strL "x"], [strL "  ", strL "y"], [strL "Bob"]]).1 +
      (processRows [(strL "\x7b\x7bNAME\x7d\x7d", 0)] (-1) (strL "yes") (-1)
        (fun _ => some (7, 8)) (fun _ => none) false 1
        [[strL "Alice", strL "x"], [strL "  ", strL "y"], [strL "Bob"]]).2.1 = 3 ∧
    (processRows [(strL "\x7b\x7bNAME\x7d\x7d", 0)] (-1) (strL "yes") (-1)
        (fun _ => some (7, 8)) (fun _ => none) false 1
        [[strL "Alice", strL "x"], [strL "  ", strL "y"], [strL "Bob"]]).1 =
      List.countP (fun row => rowHasContent [(strL "\x7b\x7bNAME\x7d\x7d", 0)] row)
        [[strL "Alice", strL "x"], [strL "  ", strL "y"], [strL "Bob"]] := by
  have h := c7_no_flag_all_content_processed [strL "Name"]
    [(strL "\x7b\x7bNAME\x7d\x7d", 0)] (strL "yes") (-1) (fun _ => some (7, 8))
    (fun _ => none) false 1
    [[strL "Alice", strL "x"], [strL "  ", strL "y"], [strL "Bob"]]
  exact ⟨h.2.1, h.2.2 (fun j => rfl)⟩

/-! ## C8: flag-comparison normalization -/

/-- Claim C8: the process-flag match outcome is invariant under adding or
removing leading/trailing whitespace and under case changes on either
side, and a row whose in-bounds flag cell fails the (trimmed, case-folded)
comparison is skipped: the skipped counter is incremented, the processed
counter and files are untouched, and a `Skipped` status write is emitted. -/
theorem c8_flag_match_invariance (cell flagVal cell2 flagVal2 w1 w2 w3 w4 : Str)
    (h1 : ∀ c ∈ w1, isPySpace c = true) (h2 : ∀ c ∈ w2, isPySpace c = true)
    (h3 : ∀ c ∈ w3, isPySpace c = true) (h4 : ∀ c ∈ w4, isPySpace c = true)
    (hcase1 : pyLower cell2 = pyLower cell)
    (hcase2 : pyLower flagVal2 = pyLower flagVal) :
    flagMatches (w1 ++ cell2 ++ w2) (w3 ++ flagVal2 ++ w4) = flagMatches cell flagVal ∧
    (∀ (mi : List (Str × Nat)) (sIdx : Int) (render : Nat → Option (Nat × Nat))
        (ob : Nat → Option Nat) (dob : Bool) (i : Nat) (row : List Str)
        (rest : List (List Str)) (pfIdx : Int),
      pfIdx ≠ -1 → pfIdx < (row.length : Int) →
      flagMatches (row.getD pfIdx.toNat []) flagVal = false →
      (processRows mi pfIdx flagVal sIdx render ob dob i (row :: rest)).1 =
        (processRows mi pfIdx flagVal sIdx render ob dob (i + 1) rest).1 ∧
      (processRows mi pfIdx flagVal sIdx render ob dob i (row :: rest)).2.1 =
        (processRows mi pfIdx flagVal sIdx render ob dob (i + 1) rest).2.1 + 1 ∧
      (processRows mi pfIdx flagVal sIdx render ob dob i (row :: rest)).2.2.1 =
        (processRows mi pfIdx flagVal sIdx render ob dob (i + 1) rest).2.2.1 ∧
      (processRows mi pfIdx flagVal sIdx render ob dob i (row :: rest)).2.2.2 =
        statusWrite sIdx i (strL "Skipped") ++
          (processRows mi pfIdx flagVal sIdx render ob dob (i + 1) rest).2.2.2) := by
  have pyLower_append : ∀ a b : Str, pyLower (a ++ b) = pyLower a ++ pyLower b :=
    fun a b => List.map_append _ a b
  constructor
  · have e1 : pyLower (w1 ++ cell2 ++ w2) = w1 ++ pyLower cell ++ w2 := by
      rw [pyLower_append, pyLower_append, pyLower_of_spaces h1,
        pyLower_of_spaces h2, hcase1]
    have e2 : pyLower (w3 ++ flagVal2 ++ w4) = w3 ++ pyLower flagVal ++ w4 := by
      rw [pyLower_append, pyLower_append, pyLower_of_spaces h3,
        pyLower_of_spaces h4, hcase2]
    unfold flagMatches
    rw [e1, e2, pyStrip_wrap h1 h2, pyStrip_wrap h3 h4]
  · intro mi sIdx render ob dob i row rest pfIdx hne hlt hf
    have hsp : shouldProcessRow pfIdx flagVal row = false := by
      unfold shouldProcessRow
      rw [if_pos ⟨hne, hlt⟩]
      exact hf
    refine ⟨?_, ?_, ?_, ?_⟩ <;> simp [processRows, hsp]

/-- Witness for `c8_flag_match_invariance`: `" Yes "` against `"yes"`
matches exactly as `"Yes"` against `"yes"` does, and a mismatching row is
skipped. -/
theorem c8_flag_match_invariance_witness :
    flagMatches (strL " Yes ") (strL "yes") = flagMatches (strL "Yes") (strL "yes") ∧
    (processRows [] 0 (strL "yes") (-1) (fun _ => none) (fun _ => none) false 1
      [[strL "no"]]).2.1 = 1 := by
  have h := c8_flag_match_invariance (strL "Yes") (strL "yes") (strL "Yes")
    (strL "yes") (strL " ") (strL " ") [] [] (by decide) (by decide) (by decide)
    (by decide) rfl rfl
  have h2 := (h.2 [] (-1) (fun _ => none) (fun _ => none) false 1 [strL "no"] []
    0 (by decide) (by decide) (by decide)).2.1
  exact ⟨h.1, by rw [h2]; rfl⟩

/-! ## C10: row shorter than the flag column index -/

/-- Claim C10: a row with no cell at the resolved flag column index (the
row is shorter than the index) bypasses the flag check — `should_process`
stays true even though a flag column is configured — and, given mapped
content and a successful render, the row is processed. -/
theorem c10_short_row_eligible (pfIdx : Int) (fv : Str) (row : List Str)
    (mi : List (Str × Nat)) (sIdx : Int) (render : Nat → Option (Nat × Nat))
    (ob : Nat → Option Nat) (dob : Bool) (i : Nat) (rest : List (List Str))
    (hge : 0 ≤ pfIdx) (hlen : (row.length : Int) ≤ pfIdx) :
    pfIdx ≠ -1 ∧ shouldProcessRow pfIdx fv row = true ∧
    ((rowReplacements mi row).isEmpty = false → (render i).isSome = true →
      (processRows mi pfIdx fv sIdx render ob dob i (row :: rest)).1 =
        (processRows mi pfIdx fv sIdx render ob dob (i + 1) rest).1 + 1) := by
  have hneg : pfIdx ≠ -1 := by omega
  have hcond : ¬(pfIdx ≠ -1 ∧ pfIdx < (row.length : Int)) := by
    rintro ⟨_, hlt⟩
    omega
  have hsp : shouldProcessRow pfIdx fv row = true := by
    simp [shouldProcessRow, hcond]
  refine ⟨hneg, hsp, ?_⟩
  intro hcont hrend
  obtain ⟨ids, hids⟩ := Option.isSome_iff_exists.mp hrend
  simp [processRows, hsp, hcont, hids]

/-- Witness for `c10_short_row_eligible`: flag column index 2, row of
length 1 with mapped content, renderer succeeding. -/
theorem c10_short_row_eligible_witness :
    shouldProcessRow 2 (strL "yes") [strL "Hello"] = true ∧
    (processRows [(strL "\x7b\x7bTEXT\x7d\x7d", 0)] 2 (strL "yes") (-1)
      (fun _ => some (7, 8)) (fun _ => none) false 1 [[strL "Hello"]]).1 = 1 := by
  have h := c10_short_row_eligible 2 (strL "yes") [strL "Hello"]
    [(strL "\x7b\x7bTEXT\x7d\x7d", 0)] (-1) (fun _ => some (7, 8)) (fun _ => none)
    false 1 [] (by decide) (by decide)
  refine ⟨h.2.1, ?_⟩
  rw [h.2.2 (by decide) rfl]
  rfl

end Mairu
